import Mathlib

/-!
Verification of the argument-construction and execution logic of the
drone-artifactory plugin (`plugin/plugin.go`).

The Go code is shallowly embedded as follows.  The configuration struct
`Args` is a Lean structure with one field per Go field (Go `int` becomes
`Int`).  The outside world (filesystem and child processes) is a `World`:
the list of existing files, two error oracles giving the outcome of
`os.MkdirAll` per directory and of `os.WriteFile` per path (`none` =
success, `some msg` = the error's message), and a stream of outcomes for
successive `exec.Cmd.Run` calls, consumed in order (`none` = the child
exits successfully).  Every observable action is recorded in an `Event`
trace: lines printed to standard output, child-process spawns (shell,
shell argument, command string, extra environment entries), directory
creations and file writes with their permission bits.
-/

/-- The two branches of every `runtime.GOOS` test in the source:
`"windows"` versus everything else. -/
inductive OS where
  | windows
  | other
deriving DecidableEq

/-- Embeds the Go struct `Args` (plugin.go lines 19-41); the embedded
`Pipeline` fields are unused by `Exec` and omitted. -/
structure Args where
  Level : String := ""
  Username : String := ""
  Password : String := ""
  APIKey : String := ""
  AccessToken : String := ""
  URL : String := ""
  Source : String := ""
  Target : String := ""
  Retries : Int := 0
  Flat : String := ""
  Spec : String := ""
  Threads : Int := 0
  SpecVars : String := ""
  Insecure : String := ""
  PEMFileContents : String := ""
  PEMFilePath : String := ""
deriving DecidableEq

/-- One observable action of the program. `print` is one line written to
standard output; `spawn` is one `exec.Cmd.Run` of `shell shArg cmdStr`
with `extraEnv` appended to the inherited environment; `mkdirAll` and
`writeFile` are the filesystem calls with their permission bits. -/
inductive Event where
  | print (line : String)
  | spawn (shell shArg cmdStr : String) (extraEnv : List String)
  | mkdirAll (dir : String) (perm : Nat)
  | writeFile (path contents : String) (perm : Nat)
deriving DecidableEq

/-- The outside world: existing files (path, contents), the outcome
oracles of `os.MkdirAll` and `os.WriteFile` (`none` = success), and the
stream of outcomes of successive `exec.Cmd.Run` calls. -/
structure World where
  files : List (String × String)
  mkdirErr : String → Option String
  writeErr : String → Option String
  runOutcomes : List (Option String)

/-- Whether a file exists at `path` (the `os.Stat`/`os.IsNotExist` test
at plugin.go line 111). -/
def fileExists (w : World) (path : String) : Bool :=
  w.files.any (fun f => f.1 == path)

/-- The result of running `Exec`: the event trace, the final world, the
final value of the Go local variable `cmdArgs` (recorded for
specification purposes; `[]` when `Exec` returns before building it),
and the returned `error` (`none` = `nil`). -/
structure ExecResult where
  events : List Event
  world : World
  tokens : List String
  result : Option String

/-- Embeds `getShell` (plugin.go lines 158-164). -/
def getShell (os : OS) : String × String :=
  match os with
  | .windows => ("powershell", "-Command")
  | .other => ("sh", "-c")

/-- Embeds `getSleepCommand` (plugin.go lines 166-172): a 600-second
(ten-minute) sleep in the platform shell's syntax. -/
def getSleepCommand (os : OS) : String :=
  match os with
  | .windows => "Start-Sleep 600"
  | .other => "sleep 600"

/-- Embeds `getJfrogBin` (plugin.go lines 174-179). -/
def getJfrogBin (os : OS) : String :=
  match os with
  | .windows => "C:/bin/jfrog.exe"
  | .other => "jfrog"

/-- Embeds `getEnvPrefix` (plugin.go lines 181-186). -/
def getEnvPrefix (os : OS) : String :=
  match os with
  | .windows => "$Env:"
  | .other => "$"

/-- Models Go's `strconv.ParseBool`: it accepts exactly
1, t, T, TRUE, true, True, 0, f, F, FALSE, false, False. -/
def parseBoolGo (s : String) : Option Bool :=
  if s = "1" ∨ s = "t" ∨ s = "T" ∨ s = "TRUE" ∨ s = "true" ∨ s = "True" then
    some true
  else if s = "0" ∨ s = "f" ∨ s = "F" ∨ s = "FALSE" ∨ s = "false" ∨ s = "False" then
    some false
  else
    none

/-- Embeds `parseBoolOrDefault` (plugin.go lines 188-196). -/
def parseBoolOrDefault (defaultValue : Bool) (s : String) : Bool :=
  (parseBoolGo s).getD defaultValue

/-- Models Go's `path/filepath.Dir` for the slash-separated paths the
plugin uses: everything before the last slash (`"."` when there is no
slash, `"/"` for a file directly under the root). -/
def filepathDir (path : String) : String :=
  let parts := path.splitOn "/"
  if parts.length ≤ 1 then "."
  else
    let d := String.intercalate "/" parts.dropLast
    if d = "" then "/" else d

/-- The line `trace` (plugin.go lines 200-202) prints for a command:
`+ ` followed by the space-joined argument vector. -/
def traceLine (shell shArg cmdStr : String) : String :=
  "+ " ++ String.intercalate " " [shell, shArg, cmdStr]

/-- The events of `putSleep` (plugin.go lines 43-55): the trace line,
then the spawn of the sleep command in the platform shell.  They do not
depend on the world; the run's outcome is discarded by `putSleep`. -/
def putSleepEvents (os : OS) : List Event :=
  [Event.print (traceLine (getShell os).1 (getShell os).2 (getSleepCommand os)),
   Event.spawn (getShell os).1 (getShell os).2 (getSleepCommand os) []]

/-- Embeds `putSleep` (plugin.go lines 43-55): trace and run the sleep
command, consuming one `Run` outcome from the stream and discarding it
(`_ = cmd.Run()`). -/
def putSleep (os : OS) (w : World) : List Event × World :=
  (putSleepEvents os, { w with runOutcomes := w.runOutcomes.tail })

/-- The error message of plugin.go line 64. -/
def MissingURL : String := "url needs to be set"

/-- The error message of plugin.go line 82. -/
def MissingCredentials : String :=
  "either username/password, api key or access token needs to be set"

/-- The error message of plugin.go line 134. -/
def MissingSource : String := "source file needs to be set"

/-- The error message of plugin.go line 137. -/
def MissingTarget : String := "target path needs to be set"

/-- Embeds the credential selection of plugin.go lines 74-83: the
tokens appended to `cmdArgs` for the chosen authentication mode, or
`none` when no mode is resolvable (the `MissingCredentials` case).
`pfx` is `getEnvPrefix`'s result; the flag values are environment
variable references, never the secrets themselves. -/
def credTokens (pfx : String) (args : Args) : Option (List String) :=
  if args.Username ≠ "" ∧ args.Password ≠ "" then
    some ["--user " ++ pfx ++ "PLUGIN_USERNAME",
          "--password " ++ pfx ++ "PLUGIN_PASSWORD"]
  else if args.APIKey ≠ "" then
    some ["--apikey " ++ pfx ++ "PLUGIN_API_KEY"]
  else if args.AccessToken ≠ "" then
    some ["--access-token " ++ pfx ++ "PLUGIN_ACCESS_TOKEN"]
  else
    none

/-- Embeds plugin.go lines 109-124: print the `Creating pem file` line,
then, only when no file exists at `path`, `os.MkdirAll` the parent
directory with mode 0700 and `os.WriteFile` the contents with mode
0600, wrapping either failure; an existing file is left untouched. -/
def createPemFile (w : World) (path contents : String) :
    List Event × World × Option String :=
  let creating := Event.print ("Creating pem file at \"" ++ path ++ "\"")
  if fileExists w path then
    ([creating], w, none)
  else
    let dir := filepathDir path
    match w.mkdirErr dir with
    | some e =>
        ([creating, Event.mkdirAll dir 0o700], w,
         some ("error creating pem folder: " ++ e))
    | none =>
        match w.writeErr path with
        | some e =>
            ([creating, Event.mkdirAll dir 0o700,
              Event.writeFile path contents 0o600], w,
             some ("error writing pem file: " ++ e))
        | none =>
            ([creating, Event.mkdirAll dir 0o700,
              Event.writeFile path contents 0o600,
              Event.print ("Successfully created pem file at \"" ++ path ++ "\"")],
             { w with files := (path, contents) :: w.files }, none)

/-- Embeds the pem-path resolution of plugin.go lines 100-108: the
explicit `PEMFilePath` if set, otherwise the platform default. -/
def resolvePemPath (os : OS) (args : Args) : String :=
  if args.PEMFilePath = "" then
    match os with
    | .windows => "C:/users/ContainerAdministrator/.jfrog/security/certs/cert.pem"
    | .other => "/root/.jfrog/security/certs/cert.pem"
  else
    args.PEMFilePath

/-- Embeds plugin.go lines 142-155: join `cmdArgs` with single spaces,
trace, and run the command in the platform shell with
`JFROG_CLI_OFFER_CONFIG=false` appended to the environment; the child's
exit error (the next `Run` outcome) is returned verbatim. -/
def runJfrog (os : OS) (evs : List Event) (w : World) (cmdArgs : List String) :
    ExecResult :=
  let cmdStr := String.intercalate " " cmdArgs
  { events := evs ++
      [Event.print (traceLine (getShell os).1 (getShell os).2 cmdStr),
       Event.spawn (getShell os).1 (getShell os).2 cmdStr
         ["JFROG_CLI_OFFER_CONFIG=false"]],
    world := { w with runOutcomes := w.runOutcomes.tail },
    tokens := cmdArgs,
    result := w.runOutcomes.head?.getD none }

/-- Embeds the body of `Exec` after the sleep (plugin.go lines 62-155):
validation, `cmdArgs` construction, optional pem-file creation, and the
final shell invocation. -/
def execMain (os : OS) (w : World) (args : Args) : ExecResult :=
  if args.URL = "" then
    { events := [], world := w, tokens := [], result := some MissingURL }
  else
    let cmdArgs := [getJfrogBin os, "rt", "u", "--url " ++ args.URL]
    let cmdArgs := if args.Retries ≠ 0 then
        cmdArgs ++ ["--retries=" ++ toString args.Retries] else cmdArgs
    match credTokens (getEnvPrefix os) args with
    | none =>
        { events := [], world := w, tokens := cmdArgs,
          result := some MissingCredentials }
    | some cred =>
        let cmdArgs := cmdArgs ++ cred
        let flat := parseBoolOrDefault false args.Flat
        let cmdArgs := cmdArgs ++ ["--flat=" ++ (if flat then "true" else "false")]
        let cmdArgs := if args.Threads > 0 then
            cmdArgs ++ ["--threads=" ++ toString args.Threads] else cmdArgs
        let insecure := parseBoolOrDefault false args.Insecure
        let cmdArgs := if insecure then cmdArgs ++ ["--insecure-tls"] else cmdArgs
        let pem : List Event × World × Option String :=
          if args.PEMFileContents ≠ "" ∧ insecure = false then
            createPemFile w (resolvePemPath os args) args.PEMFileContents
          else ([], w, none)
        match pem with
        | (evs, w1, some e) =>
            { events := evs, world := w1, tokens := cmdArgs, result := some e }
        | (evs, w1, none) =>
            if args.Spec ≠ "" then
              let cmdArgs := cmdArgs ++ ["--spec=" ++ args.Spec]
              let cmdArgs := if args.SpecVars ≠ "" then
                  cmdArgs ++ ["--spec-vars='" ++ args.SpecVars ++ "'"]
                else cmdArgs
              runJfrog os evs w1 cmdArgs
            else if args.Source = "" then
              { events := evs, world := w1, tokens := cmdArgs,
                result := some MissingSource }
            else if args.Target = "" then
              { events := evs, world := w1, tokens := cmdArgs,
                result := some MissingTarget }
            else
              let cmdArgs := cmdArgs ++
                ["\"" ++ args.Source ++ "\"", args.Target]
              runJfrog os evs w1 cmdArgs

/-- Embeds `Exec` (plugin.go lines 58-156): the unconditional sleep
invocation first, then the main body. -/
def Exec (os : OS) (w : World) (args : Args) : ExecResult :=
  let s := putSleep os w
  let r := execMain os s.2 args
  { r with events := s.1 ++ r.events }

/-- Whether an event is a child-process spawn. -/
def Event.isSpawn : Event → Bool
  | .spawn _ _ _ _ => true
  | _ => false

/-- Whether an event is a file write. -/
def Event.isWrite : Event → Bool
  | .writeFile _ _ _ => true
  | _ => false

/-- Whether an event is a directory creation. -/
def Event.isMkdir : Event → Bool
  | .mkdirAll _ _ => true
  | _ => false

/-- A world with no files, always-succeeding filesystem oracles and an
empty run-outcome stream, used for concrete evaluations. -/
def cleanWorld : World :=
  { files := [], mkdirErr := fun _ => none, writeErr := fun _ => none,
    runOutcomes := [] }

/-- An if-then-else that appends a segment distributes over the append:
used to normalize the conditional `cmdArgs` extensions. -/
theorem append_ite (c : Prop) [Decidable c] (xs ys : List String) :
    (if c then xs ++ ys else xs) = xs ++ (if c then ys else []) := by
  split <;> simp

/-- C10: the result of `Exec` is independent of the outcome of the
preliminary sleep shell invocation: `putSleep` discards the error of its
`Run` call, so replacing the first run outcome of the stream by any
other changes nothing about `Exec`'s behaviour. -/
theorem c10_sleep_outcome_ignored (os : OS) (args : Args)
    (files : List (String × String)) (me we : String → Option String)
    (o1 o2 : Option String) (rest : List (Option String)) :
    Exec os { files := files, mkdirErr := me, writeErr := we, runOutcomes := o1 :: rest } args =
    Exec os { files := files, mkdirErr := me, writeErr := we, runOutcomes := o2 :: rest } args :=
  rfl

/-- C2: for every configuration, valid or not, the very first events of
`Exec` are the trace and spawn of the fixed sleep command — a separate
shell invocation of `sleep 600` (`Start-Sleep 600` on Windows), i.e. a
ten-minute sleep — before any validation or other work. -/
theorem c2_sleep_before_everything (os : OS) (w : World) (args : Args) :
    (∃ rest, (Exec os w args).events =
      [Event.print (traceLine (getShell os).1 (getShell os).2 (getSleepCommand os)),
       Event.spawn (getShell os).1 (getShell os).2 (getSleepCommand os) []] ++ rest)
    ∧ getSleepCommand OS.other = "sleep 600"
    ∧ getSleepCommand OS.windows = "Start-Sleep 600" :=
  ⟨⟨(execMain os (putSleep os w).2 args).events, rfl⟩, rfl, rfl⟩

/-- A configuration with no URL (and every other field empty). -/
def noURLArgs : Args := {}

/-- C1 counterexample: with an empty URL, `Exec` does return the
`MissingURL` error, but a child process (the sleep shell invocation) is
spawned before that failure — refuting the claim's "no child process
spawned". -/
theorem c1_spawn_despite_missing_url :
    (Exec OS.other cleanWorld noURLArgs).result = some MissingURL ∧
    (Exec OS.other cleanWorld noURLArgs).events.any Event.isSpawn = true :=
  ⟨rfl, rfl⟩

/-- C1 (amended): for every configuration with an empty URL, `Exec`
returns the `MissingURL` validation error with no events beyond the
preliminary sleep invocation — in particular no certificate file is
written, no directory is created, and no child process other than the
sleep shell is spawned. -/
theorem c1_missing_url_fails_after_sleep_only (os : OS) (w : World) (args : Args)
    (h : args.URL = "") :
    Exec os w args =
      { events := putSleepEvents os,
        world := { w with runOutcomes := w.runOutcomes.tail },
        tokens := [], result := some MissingURL } := by
  simp [Exec, execMain, putSleep, h]

/-- C1 witness: the amended statement at the concrete empty
configuration. -/
theorem c1_missing_url_witness :
    Exec OS.other cleanWorld noURLArgs =
      { events := putSleepEvents OS.other,
        world := { cleanWorld with runOutcomes := cleanWorld.runOutcomes.tail },
        tokens := [], result := some MissingURL } :=
  c1_missing_url_fails_after_sleep_only OS.other cleanWorld noURLArgs rfl

/-- The credential tokens depend on the four secret fields only through
their emptiness: the emitted flags are environment-variable references,
never the literal values. -/
theorem credTokens_congr (pfx : String) (a b : Args)
    (hu : a.Username = "" ↔ b.Username = "")
    (hp : a.Password = "" ↔ b.Password = "")
    (hk : a.APIKey = "" ↔ b.APIKey = "")
    (ht : a.AccessToken = "" ↔ b.AccessToken = "") :
    credTokens pfx a = credTokens pfx b := by
  unfold credTokens
  by_cases h1 : a.Username = "" <;> by_cases h2 : a.Password = "" <;>
    by_cases h3 : a.APIKey = "" <;> by_cases h4 : a.AccessToken = "" <;>
      simp_all

/-- C3 (amended): `Exec` is entirely independent of the literal secret
values: two configurations that agree on every non-secret field and on
which secret fields are empty produce identical results — identical
event traces (hence identical command strings), world and error. -/
theorem c3_secret_noninterference (os : OS) (w : World) (a b : Args)
    (hL : a.Level = b.Level) (hURL : a.URL = b.URL)
    (hSrc : a.Source = b.Source) (hTgt : a.Target = b.Target)
    (hRet : a.Retries = b.Retries) (hFlat : a.Flat = b.Flat)
    (hSpec : a.Spec = b.Spec) (hThr : a.Threads = b.Threads)
    (hSV : a.SpecVars = b.SpecVars) (hIns : a.Insecure = b.Insecure)
    (hPC : a.PEMFileContents = b.PEMFileContents)
    (hPP : a.PEMFilePath = b.PEMFilePath)
    (hu : a.Username = "" ↔ b.Username = "")
    (hp : a.Password = "" ↔ b.Password = "")
    (hk : a.APIKey = "" ↔ b.APIKey = "")
    (ht : a.AccessToken = "" ↔ b.AccessToken = "") :
    Exec os w a = Exec os w b := by
  have hc : credTokens (getEnvPrefix os) a = credTokens (getEnvPrefix os) b :=
    credTokens_congr (getEnvPrefix os) a b hu hp hk ht
  cases a
  cases b
  dsimp at hL hURL hSrc hTgt hRet hFlat hSpec hThr hSV hIns hPC hPP
  subst hL hURL hSrc hTgt hRet hFlat hSpec hThr hSV hIns hPC hPP
  unfold Exec execMain
  rw [hc]
  congr 1

/-- Username/password configuration for the C3 counterexample. -/
def cfgSecretsA : Args :=
  { URL := "https://x", Username := "u", Password := "p",
    Source := "s", Target := "t" }

/-- Same configuration except for the secret fields: username and
password cleared, an API key set instead. -/
def cfgSecretsB : Args :=
  { URL := "https://x", APIKey := "k", Source := "s", Target := "t" }

/-- C3 counterexample: two configurations that differ only in the
values of the four secret fields yield different command strings (the
first emits user/password flags, the second an apikey flag), refuting
the claim's "two configurations differing only in secret values yield
identical command strings". -/
theorem c3_secrets_change_command :
    cfgSecretsA.Level = cfgSecretsB.Level ∧
    cfgSecretsA.URL = cfgSecretsB.URL ∧
    cfgSecretsA.Source = cfgSecretsB.Source ∧
    cfgSecretsA.Target = cfgSecretsB.Target ∧
    cfgSecretsA.Retries = cfgSecretsB.Retries ∧
    cfgSecretsA.Flat = cfgSecretsB.Flat ∧
    cfgSecretsA.Spec = cfgSecretsB.Spec ∧
    cfgSecretsA.Threads = cfgSecretsB.Threads ∧
    cfgSecretsA.SpecVars = cfgSecretsB.SpecVars ∧
    cfgSecretsA.Insecure = cfgSecretsB.Insecure ∧
    cfgSecretsA.PEMFileContents = cfgSecretsB.PEMFileContents ∧
    cfgSecretsA.PEMFilePath = cfgSecretsB.PEMFilePath ∧
    (Exec OS.other cleanWorld cfgSecretsA).tokens ≠
      (Exec OS.other cleanWorld cfgSecretsB).tokens ∧
    String.intercalate " " (Exec OS.other cleanWorld cfgSecretsA).tokens ≠
      String.intercalate " " (Exec OS.other cleanWorld cfgSecretsB).tokens := by
  refine ⟨rfl, rfl, rfl, rfl, rfl, rfl, rfl, rfl, rfl, rfl, rfl, rfl, ?_, ?_⟩ <;> decide

/-- C3 witness: two concrete configurations differing only in the
password's (non-empty) literal value run identically. -/
theorem c3_noninterference_witness :
    Exec OS.other cleanWorld { cfgSecretsA with Password := "p1" } =
    Exec OS.other cleanWorld { cfgSecretsA with Password := "p2" } :=
  c3_secret_noninterference OS.other cleanWorld
    { cfgSecretsA with Password := "p1" } { cfgSecretsA with Password := "p2" }
    rfl rfl rfl rfl rfl rfl rfl rfl rfl rfl rfl rfl
    (by decide) (by decide) (by decide) (by decide)

/-- Merging the shared head of the two branches of an if-then-else. -/
theorem ite_cons_cons {α : Type} (c : Prop) [Decidable c] (a : α) (l1 l2 : List α) :
    (if c then a :: l1 else a :: l2) = a :: (if c then l1 else l2) := by
  split <;> rfl

/-- Merging the shared prefix of the two branches of an if-then-else. -/
theorem ite_append_left {α : Type} (c : Prop) [Decidable c] (xs ys zs : List α) :
    (if c then xs ++ ys else xs ++ zs) = xs ++ (if c then ys else zs) := by
  split <;> rfl

/-- The pem-provisioning step is attempted (contents present, insecure
false) and fails: no file exists at the resolved path and one of the two
filesystem calls errors. -/
def pemStepFails (os : OS) (w : World) (args : Args) : Prop :=
  args.PEMFileContents ≠ "" ∧ parseBoolOrDefault false args.Insecure = false ∧
  fileExists w (resolvePemPath os args) = false ∧
  ((w.mkdirErr (filepathDir (resolvePemPath os args))).isSome ∨
   (w.writeErr (resolvePemPath os args)).isSome)

instance (os : OS) (w : World) (args : Args) : Decidable (pemStepFails os w args) := by
  unfold pemStepFails
  infer_instance

/-- The wrapped error message the failed pem step produces: the mkdir
failure takes precedence over the write failure. -/
def pemErrMsg (os : OS) (w : World) (args : Args) : String :=
  match w.mkdirErr (filepathDir (resolvePemPath os args)) with
  | some e => "error creating pem folder: " ++ e
  | none =>
      match w.writeErr (resolvePemPath os args) with
      | some e => "error writing pem file: " ++ e
      | none => ""

/-- The pem-provisioning step is attempted and writes the file: no file
exists at the resolved path and both filesystem calls succeed. -/
def pemWritten (os : OS) (w : World) (args : Args) : Prop :=
  args.PEMFileContents ≠ "" ∧ parseBoolOrDefault false args.Insecure = false ∧
  fileExists w (resolvePemPath os args) = false ∧
  w.mkdirErr (filepathDir (resolvePemPath os args)) = none ∧
  w.writeErr (resolvePemPath os args) = none

instance (os : OS) (w : World) (args : Args) : Decidable (pemWritten os w args) := by
  unfold pemWritten
  infer_instance

/-- `Exec` passes the post-sleep world to the main body and keeps its
token list. -/
theorem Exec_tokens (os : OS) (w : World) (args : Args) :
    (Exec os w args).tokens = (execMain os (putSleep os w).2 args).tokens := rfl

/-- `Exec` returns the main body's error unchanged. -/
theorem Exec_result (os : OS) (w : World) (args : Args) :
    (Exec os w args).result = (execMain os (putSleep os w).2 args).result := rfl

/-- `Exec`'s final world is the main body's. -/
theorem Exec_world (os : OS) (w : World) (args : Args) :
    (Exec os w args).world = (execMain os (putSleep os w).2 args).world := rfl

/-- `Exec`'s events are the sleep's followed by the main body's. -/
theorem Exec_events (os : OS) (w : World) (args : Args) :
    (Exec os w args).events =
      putSleepEvents os ++ (execMain os (putSleep os w).2 args).events := rfl

set_option maxHeartbeats 1600000 in
/-- Full characterization of the constructed `cmdArgs` when a URL and a
credential mode are present: the segments appear in the fixed source
order — binary, subcommand, url flag, retries, credential flags, flat,
threads, insecure, then (unless the run aborted in the pem step) the
spec flags or the quoted source and the target. -/
theorem execMain_tokens_eq (os : OS) (w : World) (args : Args)
    (hURL : ¬ args.URL = "") (ct : List String)
    (hc : credTokens (getEnvPrefix os) args = some ct) :
    (execMain os w args).tokens =
      [getJfrogBin os, "rt", "u", "--url " ++ args.URL]
      ++ (if args.Retries ≠ 0 then ["--retries=" ++ toString args.Retries] else [])
      ++ ct
      ++ ["--flat=" ++ (if parseBoolOrDefault false args.Flat then "true" else "false")]
      ++ (if args.Threads > 0 then ["--threads=" ++ toString args.Threads] else [])
      ++ (if parseBoolOrDefault false args.Insecure then ["--insecure-tls"] else [])
      ++ (if pemStepFails os w args then []
          else if args.Spec ≠ "" then
            ["--spec=" ++ args.Spec] ++
            (if args.SpecVars ≠ "" then ["--spec-vars='" ++ args.SpecVars ++ "'"] else [])
          else if args.Source = "" then []
          else if args.Target = "" then []
          else ["\"" ++ args.Source ++ "\"", args.Target]) := by
  rcases hmk : w.mkdirErr (filepathDir (resolvePemPath os args)) with _ | e1 <;>
  rcases hwr : w.writeErr (resolvePemPath os args) with _ | e2 <;>
  rcases hex : fileExists w (resolvePemPath os args) with _ | _ <;>
  by_cases hp : args.PEMFileContents = "" <;>
  by_cases hins : parseBoolOrDefault false args.Insecure = true <;>
  (simp only [execMain, createPemFile, pemStepFails]
   rw [if_neg hURL, hc]
   simp [hp, hins, hmk, hwr, hex, runJfrog, append_ite, ite_cons_cons, ite_append_left,
         List.append_assoc] <;>
     (try (split <;> try simp_all [append_ite, ite_cons_cons, ite_append_left,
           List.append_assoc])) <;>
     (try (split <;> try simp_all [append_ite, ite_cons_cons, ite_append_left,
           List.append_assoc])) <;>
     (try (split <;> try simp_all [append_ite, ite_cons_cons, ite_append_left,
           List.append_assoc])))

/-- When no credential mode is resolvable (and the URL is set), the run
stops with `MissingCredentials`: no events, unchanged world, and the
tokens built so far end at the retries flag. -/
theorem execMain_noCred (os : OS) (w : World) (args : Args)
    (hURL : ¬ args.URL = "") (hc : credTokens (getEnvPrefix os) args = none) :
    execMain os w args =
      { events := [], world := w,
        tokens := [getJfrogBin os, "rt", "u", "--url " ++ args.URL]
          ++ (if args.Retries ≠ 0 then ["--retries=" ++ toString args.Retries] else []),
        result := some MissingCredentials } := by
  simp only [execMain]
  rw [if_neg hURL, hc]
  simp [append_ite, ite_cons_cons, ite_append_left]

set_option maxHeartbeats 1600000 in
/-- Full characterization of the returned error when a URL and a
credential mode are present: a failed pem step aborts with its wrapped
message; otherwise spec mode proceeds to the invocation, source/target
mode requires both fields and then proceeds; the invocation's result is
the next run outcome of the stream. -/
theorem execMain_result_eq (os : OS) (w : World) (args : Args)
    (hURL : ¬ args.URL = "") (ct : List String)
    (hc : credTokens (getEnvPrefix os) args = some ct) :
    (execMain os w args).result =
      if pemStepFails os w args then some (pemErrMsg os w args)
      else if args.Spec ≠ "" then w.runOutcomes.head?.getD none
      else if args.Source = "" then some MissingSource
      else if args.Target = "" then some MissingTarget
      else w.runOutcomes.head?.getD none := by
  rcases hmk : w.mkdirErr (filepathDir (resolvePemPath os args)) with _ | e1 <;>
  rcases hwr : w.writeErr (resolvePemPath os args) with _ | e2 <;>
  rcases hex : fileExists w (resolvePemPath os args) with _ | _ <;>
  by_cases hp : args.PEMFileContents = "" <;>
  by_cases hins : parseBoolOrDefault false args.Insecure = true <;>
  (simp only [execMain, createPemFile, pemStepFails, pemErrMsg]
   rw [if_neg hURL, hc]
   simp [hp, hins, hmk, hwr, hex, runJfrog] <;>
     (try (split <;> try simp_all)) <;>
     (try (split <;> try simp_all)) <;>
     (try (split <;> try simp_all)))

set_option maxHeartbeats 1600000 in
/-- Full characterization of the filesystem effect of the main body:
the certificate file is added exactly when the run reaches the pem step
(URL set, credentials resolvable) and the step writes it; in every
other case the files are untouched. -/
theorem execMain_files_eq (os : OS) (w : World) (args : Args) :
    (execMain os w args).world.files =
      if ¬ args.URL = "" ∧ (credTokens (getEnvPrefix os) args).isSome ∧
          pemWritten os w args
      then (resolvePemPath os args, args.PEMFileContents) :: w.files
      else w.files := by
  by_cases hURL : args.URL = ""
  · simp [execMain, hURL]
  rcases hcred : credTokens (getEnvPrefix os) args with _ | ct
  · rw [execMain_noCred os w args hURL hcred]
    simp [hcred]
  rcases hmk : w.mkdirErr (filepathDir (resolvePemPath os args)) with _ | e1 <;>
  rcases hwr : w.writeErr (resolvePemPath os args) with _ | e2 <;>
  rcases hex : fileExists w (resolvePemPath os args) with _ | _ <;>
  by_cases hp : args.PEMFileContents = "" <;>
  by_cases hins : parseBoolOrDefault false args.Insecure = true <;>
  (simp only [execMain, createPemFile, pemWritten]
   rw [if_neg hURL, hcred]
   simp [hp, hins, hmk, hwr, hex, runJfrog, hURL, hcred] <;>
     (try (split <;> try simp_all)) <;>
     (try (split <;> try simp_all)) <;>
     (try (split <;> try simp_all)))

set_option maxHeartbeats 1600000 in
/-- When insecure mode is on, the main body's events contain no file
write and no directory creation: the pem step is skipped entirely. -/
theorem execMain_events_no_fs (os : OS) (w : World) (args : Args)
    (hins : parseBoolOrDefault false args.Insecure = true) :
    ((execMain os w args).events.all (fun e => !e.isWrite && !e.isMkdir)) = true := by
  by_cases hURL : args.URL = ""
  · simp [execMain, hURL]
  rcases hcred : credTokens (getEnvPrefix os) args with _ | ct
  · rw [execMain_noCred os w args hURL hcred]
    rfl
  · simp only [execMain]
    rw [if_neg hURL, hcred]
    simp [hins, runJfrog, Event.isWrite, Event.isMkdir] <;>
      (try (split <;> try simp_all [Event.isWrite, Event.isMkdir])) <;>
      (try (split <;> try simp_all [Event.isWrite, Event.isMkdir])) <;>
      (try (split <;> try simp_all [Event.isWrite, Event.isMkdir]))

set_option maxHeartbeats 1600000 in
/-- When the run reaches the pem step and the step writes the file, the
write event (mode 0600) is in the main body's event trace. -/
theorem execMain_write_event (os : OS) (w : World) (args : Args)
    (hURL : ¬ args.URL = "") (ct : List String)
    (hc : credTokens (getEnvPrefix os) args = some ct)
    (hpw : pemWritten os w args) :
    Event.writeFile (resolvePemPath os args) args.PEMFileContents 0o600 ∈
      (execMain os w args).events := by
  obtain ⟨hp, hins, hex, hmk, hwr⟩ := hpw
  simp only [execMain, createPemFile]
  rw [if_neg hURL, hc]
  simp [hp, hins, hmk, hwr, hex, runJfrog] <;>
    (try (split <;> try simp_all)) <;>
    (try (split <;> try simp_all)) <;>
    (try (split <;> try simp_all))

/-- The `cmdArgs` segments following the credential flags: flat,
threads, insecure, and the trailing spec or source/target tokens. -/
def tokensTail (os : OS) (w : World) (args : Args) : List String :=
  ["--flat=" ++ (if parseBoolOrDefault false args.Flat then "true" else "false")]
  ++ (if args.Threads > 0 then ["--threads=" ++ toString args.Threads] else [])
  ++ (if parseBoolOrDefault false args.Insecure then ["--insecure-tls"] else [])
  ++ (if pemStepFails os w args then []
      else if args.Spec ≠ "" then
        ["--spec=" ++ args.Spec] ++
        (if args.SpecVars ≠ "" then ["--spec-vars='" ++ args.SpecVars ++ "'"] else [])
      else if args.Source = "" then []
      else if args.Target = "" then []
      else ["\"" ++ args.Source ++ "\"", args.Target])

/-- C4: credential selection follows the fixed precedence
(username AND password) > API key > access token: the command carries
the user and password flags when both are set, else the apikey flag,
else the access-token flag — each flag an environment-variable
reference — and with no mode resolvable `Exec` fails with
`MissingCredentials`. -/
theorem c4_credential_precedence (os : OS) (w : World) (args : Args)
    (hURL : ¬ args.URL = "") :
    ((args.Username ≠ "" ∧ args.Password ≠ "") →
      ∃ suffix, (Exec os w args).tokens =
        [getJfrogBin os, "rt", "u", "--url " ++ args.URL]
        ++ (if args.Retries ≠ 0 then ["--retries=" ++ toString args.Retries] else [])
        ++ ["--user " ++ getEnvPrefix os ++ "PLUGIN_USERNAME",
            "--password " ++ getEnvPrefix os ++ "PLUGIN_PASSWORD"]
        ++ suffix)
    ∧ (¬(args.Username ≠ "" ∧ args.Password ≠ "") → args.APIKey ≠ "" →
      ∃ suffix, (Exec os w args).tokens =
        [getJfrogBin os, "rt", "u", "--url " ++ args.URL]
        ++ (if args.Retries ≠ 0 then ["--retries=" ++ toString args.Retries] else [])
        ++ ["--apikey " ++ getEnvPrefix os ++ "PLUGIN_API_KEY"]
        ++ suffix)
    ∧ (¬(args.Username ≠ "" ∧ args.Password ≠ "") → args.APIKey = "" →
        args.AccessToken ≠ "" →
      ∃ suffix, (Exec os w args).tokens =
        [getJfrogBin os, "rt", "u", "--url " ++ args.URL]
        ++ (if args.Retries ≠ 0 then ["--retries=" ++ toString args.Retries] else [])
        ++ ["--access-token " ++ getEnvPrefix os ++ "PLUGIN_ACCESS_TOKEN"]
        ++ suffix)
    ∧ (¬(args.Username ≠ "" ∧ args.Password ≠ "") → args.APIKey = "" →
        args.AccessToken = "" →
      (Exec os w args).result = some MissingCredentials) := by
  refine ⟨?_, ?_, ?_, ?_⟩
  · intro h
    have hc : credTokens (getEnvPrefix os) args =
        some ["--user " ++ getEnvPrefix os ++ "PLUGIN_USERNAME",
              "--password " ++ getEnvPrefix os ++ "PLUGIN_PASSWORD"] := by
      simp [credTokens, h]
    refine ⟨tokensTail os (putSleep os w).2 args, ?_⟩
    rw [Exec_tokens, execMain_tokens_eq os (putSleep os w).2 args hURL _ hc]
    simp [tokensTail, List.append_assoc]
  · intro h hk
    have hc : credTokens (getEnvPrefix os) args =
        some ["--apikey " ++ getEnvPrefix os ++ "PLUGIN_API_KEY"] := by
      simp [credTokens, h, hk]
    refine ⟨tokensTail os (putSleep os w).2 args, ?_⟩
    rw [Exec_tokens, execMain_tokens_eq os (putSleep os w).2 args hURL _ hc]
    simp [tokensTail, List.append_assoc]
  · intro h hk ht
    have hc : credTokens (getEnvPrefix os) args =
        some ["--access-token " ++ getEnvPrefix os ++ "PLUGIN_ACCESS_TOKEN"] := by
      simp [credTokens, h, hk, ht]
    refine ⟨tokensTail os (putSleep os w).2 args, ?_⟩
    rw [Exec_tokens, execMain_tokens_eq os (putSleep os w).2 args hURL _ hc]
    simp [tokensTail, List.append_assoc]
  · intro h hk ht
    have hc : credTokens (getEnvPrefix os) args = none := by
      simp [credTokens, h, hk, ht]
    rw [Exec_result, execMain_noCred os (putSleep os w).2 args hURL hc]

/-- C4 witness: the precedence at a concrete configuration where both
username/password and an API key are set: user/password flags win. -/
theorem c4_witness :
    ∃ suffix, (Exec OS.other cleanWorld { cfgSecretsA with APIKey := "k" }).tokens =
      [getJfrogBin OS.other, "rt", "u", "--url " ++ ({ cfgSecretsA with APIKey := "k" } : Args).URL]
      ++ (if ({ cfgSecretsA with APIKey := "k" } : Args).Retries ≠ 0 then
            ["--retries=" ++ toString ({ cfgSecretsA with APIKey := "k" } : Args).Retries] else [])
      ++ ["--user " ++ getEnvPrefix OS.other ++ "PLUGIN_USERNAME",
          "--password " ++ getEnvPrefix OS.other ++ "PLUGIN_PASSWORD"]
      ++ suffix :=
  (c4_credential_precedence OS.other cleanWorld { cfgSecretsA with APIKey := "k" }
    (by decide)).1 (by decide)

/-- C5: spec-file mode and source/target mode are mutually exclusive.
With a non-empty `Spec` the command ends with the spec flag (plus the
single-quoted spec-vars flag when `SpecVars` is non-empty), `Source` and
`Target` are neither required nor emitted, and the run proceeds to the
invocation; with an empty `Spec` an empty `Source` yields
`MissingSource` and an empty `Target` yields `MissingTarget` (under the
hypotheses that the earlier validation stages pass: URL set, a
credential mode resolvable, and the filesystem calls succeeding). -/
theorem c5_spec_vs_source_target (os : OS) (w : World) (args : Args)
    (hURL : ¬ args.URL = "")
    (hcred : (credTokens (getEnvPrefix os) args).isSome = true)
    (hmk : ∀ d, w.mkdirErr d = none) (hwr : ∀ p, w.writeErr p = none) :
    (args.Spec ≠ "" →
      (∃ ct, credTokens (getEnvPrefix os) args = some ct ∧
        (Exec os w args).tokens =
          ([getJfrogBin os, "rt", "u", "--url " ++ args.URL]
           ++ (if args.Retries ≠ 0 then ["--retries=" ++ toString args.Retries] else [])
           ++ ct
           ++ ["--flat=" ++ (if parseBoolOrDefault false args.Flat then "true" else "false")]
           ++ (if args.Threads > 0 then ["--threads=" ++ toString args.Threads] else [])
           ++ (if parseBoolOrDefault false args.Insecure then ["--insecure-tls"] else []))
          ++ ["--spec=" ++ args.Spec]
          ++ (if args.SpecVars ≠ "" then ["--spec-vars='" ++ args.SpecVars ++ "'"] else []))
      ∧ (Exec os w args).result = w.runOutcomes.tail.head?.getD none)
    ∧ (args.Spec = "" → args.Source = "" →
        (Exec os w args).result = some MissingSource)
    ∧ (args.Spec = "" → args.Source ≠ "" → args.Target = "" →
        (Exec os w args).result = some MissingTarget) := by
  obtain ⟨ct, hc⟩ := Option.isSome_iff_exists.mp hcred
  have hnf : ¬ pemStepFails os (putSleep os w).2 args := by
    simp [pemStepFails, putSleep, hmk, hwr]
  refine ⟨fun hs => ⟨⟨ct, hc, ?_⟩, ?_⟩, fun hs hsrc => ?_, fun hs hsrc htg => ?_⟩
  · rw [Exec_tokens, execMain_tokens_eq os (putSleep os w).2 args hURL _ hc]
    simp [hnf, hs, List.append_assoc]
  · rw [Exec_result, execMain_result_eq os (putSleep os w).2 args hURL _ hc]
    rw [if_neg hnf, if_pos hs]
    rfl
  · rw [Exec_result, execMain_result_eq os (putSleep os w).2 args hURL _ hc]
    simp [hnf, hs, hsrc]
  · rw [Exec_result, execMain_result_eq os (putSleep os w).2 args hURL _ hc]
    simp [hnf, hs, hsrc, htg]

/-- C5 witness: the spec branch and the missing-source error at
concrete configurations. -/
theorem c5_witness :
    ((({ cfgSecretsB with Spec := "sp.json" } : Args).Spec ≠ "" →
      (∃ ct, credTokens (getEnvPrefix OS.other) { cfgSecretsB with Spec := "sp.json" } = some ct ∧
        (Exec OS.other cleanWorld { cfgSecretsB with Spec := "sp.json" }).tokens =
          ([getJfrogBin OS.other, "rt", "u",
            "--url " ++ ({ cfgSecretsB with Spec := "sp.json" } : Args).URL]
           ++ (if ({ cfgSecretsB with Spec := "sp.json" } : Args).Retries ≠ 0 then
                 ["--retries=" ++ toString ({ cfgSecretsB with Spec := "sp.json" } : Args).Retries]
               else [])
           ++ ct
           ++ ["--flat=" ++ (if parseBoolOrDefault false
                 ({ cfgSecretsB with Spec := "sp.json" } : Args).Flat then "true" else "false")]
           ++ (if ({ cfgSecretsB with Spec := "sp.json" } : Args).Threads > 0 then
                 ["--threads=" ++ toString ({ cfgSecretsB with Spec := "sp.json" } : Args).Threads]
               else [])
           ++ (if parseBoolOrDefault false
                 ({ cfgSecretsB with Spec := "sp.json" } : Args).Insecure then
                 ["--insecure-tls"] else []))
          ++ ["--spec=" ++ ({ cfgSecretsB with Spec := "sp.json" } : Args).Spec]
          ++ (if ({ cfgSecretsB with Spec := "sp.json" } : Args).SpecVars ≠ "" then
                ["--spec-vars='" ++ ({ cfgSecretsB with Spec := "sp.json" } : Args).SpecVars ++ "'"]
              else []))
      ∧ (Exec OS.other cleanWorld { cfgSecretsB with Spec := "sp.json" }).result =
          cleanWorld.runOutcomes.tail.head?.getD none)
    ∧ (({ cfgSecretsB with Spec := "sp.json" } : Args).Spec = "" →
        ({ cfgSecretsB with Spec := "sp.json" } : Args).Source = "" →
        (Exec OS.other cleanWorld { cfgSecretsB with Spec := "sp.json" }).result =
          some MissingSource)
    ∧ (({ cfgSecretsB with Spec := "sp.json" } : Args).Spec = "" →
        ({ cfgSecretsB with Spec := "sp.json" } : Args).Source ≠ "" →
        ({ cfgSecretsB with Spec := "sp.json" } : Args).Target = "" →
        (Exec OS.other cleanWorld { cfgSecretsB with Spec := "sp.json" }).result =
          some MissingTarget)) :=
  c5_spec_vs_source_target OS.other cleanWorld { cfgSecretsB with Spec := "sp.json" }
    (by decide) (by decide) (fun _ => rfl) (fun _ => rfl)

/-- C6: certificate provisioning is idempotent.  With a file already at
the destination the step is a no-op (a log line only, no mkdir, no
write, no error, world unchanged).  Without one, the parent directory
is created with mode 0700 and the contents are written with mode 0600,
after which a second run with the same destination and contents is a
no-op; a mkdir failure aborts with the wrapped `error creating pem
folder` message and a write failure with the wrapped `error writing pem
file` message, in both cases leaving the files unchanged. -/
theorem c6_cert_provisioning (w : World) (path contents : String) :
    (fileExists w path = true →
      createPemFile w path contents =
        ([Event.print ("Creating pem file at \"" ++ path ++ "\"")], w, none))
    ∧ (fileExists w path = false → w.mkdirErr (filepathDir path) = none →
        w.writeErr path = none →
        createPemFile w path contents =
          ([Event.print ("Creating pem file at \"" ++ path ++ "\""),
            Event.mkdirAll (filepathDir path) 0o700,
            Event.writeFile path contents 0o600,
            Event.print ("Successfully created pem file at \"" ++ path ++ "\"")],
           { w with files := (path, contents) :: w.files }, none)
        ∧ createPemFile { w with files := (path, contents) :: w.files } path contents =
            ([Event.print ("Creating pem file at \"" ++ path ++ "\"")],
             { w with files := (path, contents) :: w.files }, none))
    ∧ (∀ e, fileExists w path = false → w.mkdirErr (filepathDir path) = some e →
        createPemFile w path contents =
          ([Event.print ("Creating pem file at \"" ++ path ++ "\""),
            Event.mkdirAll (filepathDir path) 0o700], w,
           some ("error creating pem folder: " ++ e)))
    ∧ (∀ e, fileExists w path = false → w.mkdirErr (filepathDir path) = none →
        w.writeErr path = some e →
        createPemFile w path contents =
          ([Event.print ("Creating pem file at \"" ++ path ++ "\""),
            Event.mkdirAll (filepathDir path) 0o700,
            Event.writeFile path contents 0o600], w,
           some ("error writing pem file: " ++ e))) := by
  refine ⟨fun hex => ?_, fun hex hmk hwr => ⟨?_, ?_⟩, fun e hex hmk => ?_,
    fun e hex hmk hwr => ?_⟩
  · simp [createPemFile, hex]
  · simp [createPemFile, hex, hmk, hwr]
  · have hex2 : fileExists { w with files := (path, contents) :: w.files } path = true := by
      simp [fileExists]
    simp [createPemFile, hex2]
  · simp [createPemFile, hex, hmk]
  · simp [createPemFile, hex, hmk, hwr]

/-- C7: a configuration whose `Insecure` field parses to true emits the
insecure-transport flag (once the run reaches flag construction) and
never touches the filesystem: no write or mkdir event occurs anywhere
in the run and the set of files is left exactly as it was, even when
`PEMFileContents` is non-empty. -/
theorem c7_insecure_suppresses_cert (os : OS) (w : World) (args : Args)
    (hins : parseBoolOrDefault false args.Insecure = true) :
    ((Exec os w args).events.all (fun e => !e.isWrite && !e.isMkdir)) = true
    ∧ (Exec os w args).world.files = w.files
    ∧ (¬ args.URL = "" → (credTokens (getEnvPrefix os) args).isSome = true →
        "--insecure-tls" ∈ (Exec os w args).tokens) := by
  refine ⟨?_, ?_, fun hURL hcred => ?_⟩
  · rw [Exec_events]
    rw [List.all_append]
    rw [execMain_events_no_fs os (putSleep os w).2 args hins]
    simp [putSleepEvents, Event.isWrite, Event.isMkdir]
  · rw [Exec_world, execMain_files_eq]
    simp [pemWritten, hins, putSleep]
  · obtain ⟨ct, hc⟩ := Option.isSome_iff_exists.mp hcred
    rw [Exec_tokens, execMain_tokens_eq os (putSleep os w).2 args hURL _ hc]
    simp [hins]

/-- Insecure configuration with certificate contents supplied, for the
C7 witness. -/
def cfgIns : Args := { cfgSecretsB with Insecure := "true", PEMFileContents := "CERT" }

/-- C7 witness: the statement at a concrete insecure configuration with
certificate contents supplied. -/
theorem c7_witness :
    ((Exec OS.other cleanWorld cfgIns).events.all
        (fun e => !e.isWrite && !e.isMkdir)) = true
    ∧ (Exec OS.other cleanWorld cfgIns).world.files = cleanWorld.files
    ∧ (¬ cfgIns.URL = "" →
        (credTokens (getEnvPrefix OS.other) cfgIns).isSome = true →
        "--insecure-tls" ∈ (Exec OS.other cleanWorld cfgIns).tokens) :=
  c7_insecure_suppresses_cert OS.other cleanWorld cfgIns (by decide)

/-- The command line as §4.1 of the spec enumerates it, written from
the spec's words for the refinement claim C8: binary name, the `rt u`
subcommand tokens, the URL flag, then conditionally retries, the
credential flags in precedence order, the flat flag (always), threads
when positive, the insecure flag, and finally either the spec flags or
the double-quoted source followed by the target as trailing
positionals. -/
def specCommandLine (os : OS) (args : Args) : List String :=
  [getJfrogBin os, "rt", "u", "--url " ++ args.URL]
  ++ (if args.Retries ≠ 0 then ["--retries=" ++ toString args.Retries] else [])
  ++ (if args.Username ≠ "" ∧ args.Password ≠ "" then
        ["--user " ++ getEnvPrefix os ++ "PLUGIN_USERNAME",
         "--password " ++ getEnvPrefix os ++ "PLUGIN_PASSWORD"]
      else if args.APIKey ≠ "" then
        ["--apikey " ++ getEnvPrefix os ++ "PLUGIN_API_KEY"]
      else
        ["--access-token " ++ getEnvPrefix os ++ "PLUGIN_ACCESS_TOKEN"])
  ++ ["--flat=" ++ (if parseBoolOrDefault false args.Flat then "true" else "false")]
  ++ (if args.Threads > 0 then ["--threads=" ++ toString args.Threads] else [])
  ++ (if parseBoolOrDefault false args.Insecure then ["--insecure-tls"] else [])
  ++ (if args.Spec ≠ "" then
        ["--spec=" ++ args.Spec] ++
        (if args.SpecVars ≠ "" then ["--spec-vars='" ++ args.SpecVars ++ "'"] else [])
      else
        ["\"" ++ args.Source ++ "\"", args.Target])

/-- A resolvable credential mode makes `credTokens` succeed. -/
theorem credTokens_isSome (pfx : String) (args : Args)
    (hcred : args.Username ≠ "" ∧ args.Password ≠ "" ∨ args.APIKey ≠ "" ∨
      args.AccessToken ≠ "") :
    (credTokens pfx args).isSome = true := by
  unfold credTokens
  split
  · rfl
  split
  · rfl
  split
  · rfl
  · simp_all

/-- The value `credTokens` succeeds with is the precedence-ordered
flag list. -/
theorem credTokens_val (pfx : String) (args : Args) (ct : List String)
    (hc : credTokens pfx args = some ct) :
    ct = (if args.Username ≠ "" ∧ args.Password ≠ "" then
        ["--user " ++ pfx ++ "PLUGIN_USERNAME",
         "--password " ++ pfx ++ "PLUGIN_PASSWORD"]
      else if args.APIKey ≠ "" then
        ["--apikey " ++ pfx ++ "PLUGIN_API_KEY"]
      else
        ["--access-token " ++ pfx ++ "PLUGIN_ACCESS_TOKEN"]) := by
  unfold credTokens at hc
  by_cases h1 : args.Username ≠ "" ∧ args.Password ≠ ""
  · rw [if_pos h1] at hc
    rw [if_pos h1]
    exact (Option.some_inj.mp hc).symm
  · rw [if_neg h1] at hc
    rw [if_neg h1]
    by_cases h2 : args.APIKey ≠ ""
    · rw [if_pos h2] at hc
      rw [if_pos h2]
      exact (Option.some_inj.mp hc).symm
    · rw [if_neg h2] at hc
      rw [if_neg h2]
      by_cases h3 : args.AccessToken ≠ ""
      · rw [if_pos h3] at hc
        exact (Option.some_inj.mp hc).symm
      · rw [if_neg h3] at hc
        exact absurd hc (by simp)

/-- C8: the command line is built in the exact fixed order the spec
enumerates — on a run that reaches the invocation, the token list of
`Exec` equals `specCommandLine`, and in source/target mode it ends with
the double-quoted source followed by the target. -/
theorem c8_token_order (os : OS) (w : World) (args : Args)
    (hURL : ¬ args.URL = "")
    (hcred : args.Username ≠ "" ∧ args.Password ≠ "" ∨ args.APIKey ≠ "" ∨
      args.AccessToken ≠ "")
    (hmk : ∀ d, w.mkdirErr d = none) (hwr : ∀ p, w.writeErr p = none)
    (hlast : args.Spec ≠ "" ∨ (args.Source ≠ "" ∧ args.Target ≠ "")) :
    (Exec os w args).tokens = specCommandLine os args
    ∧ (args.Spec = "" → ∃ pre, (Exec os w args).tokens =
        pre ++ ["\"" ++ args.Source ++ "\"", args.Target]) := by
  obtain ⟨ct, hc⟩ := Option.isSome_iff_exists.mp
    (credTokens_isSome (getEnvPrefix os) args hcred)
  have hnf : ¬ pemStepFails os (putSleep os w).2 args := by
    simp [pemStepFails, putSleep, hmk, hwr]
  have hct := credTokens_val (getEnvPrefix os) args ct hc
  have htok := execMain_tokens_eq os (putSleep os w).2 args hURL ct hc
  rw [if_neg hnf] at htok
  constructor
  · rw [Exec_tokens, htok, hct, specCommandLine]
    by_cases hs : args.Spec = ""
    · rcases hlast with hl | ⟨hsrc, htg⟩
      · exact absurd hs hl
      · simp [hs, hsrc, htg]
    · simp [hs]
  · intro hs
    rcases hlast with hl | ⟨hsrc, htg⟩
    · exact absurd hs hl
    refine ⟨[getJfrogBin os, "rt", "u", "--url " ++ args.URL]
      ++ (if args.Retries ≠ 0 then ["--retries=" ++ toString args.Retries] else [])
      ++ ct
      ++ ["--flat=" ++ (if parseBoolOrDefault false args.Flat then "true" else "false")]
      ++ (if args.Threads > 0 then ["--threads=" ++ toString args.Threads] else [])
      ++ (if parseBoolOrDefault false args.Insecure then ["--insecure-tls"] else []), ?_⟩
    rw [Exec_tokens, htok]
    simp [hs, hsrc, htg, List.append_assoc]

/-- The spec's §8 end-to-end scenario configuration. -/
def cfgScenario : Args :=
  { URL := "https://example.com", Username := "u", Password := "p", Source := "build/app.zip", Target := "libs/app.zip" }

/-- C8 witness: the spec's own end-to-end scenario — the command line
equals the spec-enumerated one and ends with the double-quoted source
and the target. -/
theorem c8_witness :
    (Exec OS.other cleanWorld cfgScenario).tokens = specCommandLine OS.other cfgScenario
    ∧ (cfgScenario.Spec = "" → ∃ pre, (Exec OS.other cleanWorld cfgScenario).tokens =
        pre ++ ["\"" ++ cfgScenario.Source ++ "\"", cfgScenario.Target]) :=
  c8_token_order OS.other cleanWorld cfgScenario (by decide) (by decide)
    (fun _ => rfl) (fun _ => rfl) (by decide)

/-- C9: on a run that reaches the pem step with certificate contents,
insecure off and no file at the resolved path, the certificate is
written to disk before the source/target validation, so a run that then
fails with `MissingSource` or `MissingTarget` still leaves the
certificate file behind. -/
theorem c9_cert_written_despite_failure (os : OS) (w : World) (args : Args)
    (hURL : ¬ args.URL = "")
    (hcred : (credTokens (getEnvPrefix os) args).isSome = true)
    (hpem : args.PEMFileContents ≠ "")
    (hins : parseBoolOrDefault false args.Insecure = false)
    (hspec : args.Spec = "")
    (hex : fileExists w (resolvePemPath os args) = false)
    (hmk : ∀ d, w.mkdirErr d = none) (hwr : ∀ p, w.writeErr p = none)
    (hst : args.Source = "" ∨ args.Target = "") :
    ((Exec os w args).result = some MissingSource ∨
     (Exec os w args).result = some MissingTarget)
    ∧ Event.writeFile (resolvePemPath os args) args.PEMFileContents 0o600 ∈
        (Exec os w args).events
    ∧ (resolvePemPath os args, args.PEMFileContents) ∈ (Exec os w args).world.files := by
  obtain ⟨ct, hc⟩ := Option.isSome_iff_exists.mp hcred
  have hnf : ¬ pemStepFails os (putSleep os w).2 args := by
    simp [pemStepFails, putSleep, hmk, hwr]
  have hpw : pemWritten os (putSleep os w).2 args :=
    ⟨hpem, hins, hex, hmk _, hwr _⟩
  refine ⟨?_, ?_, ?_⟩
  · rw [Exec_result, execMain_result_eq os (putSleep os w).2 args hURL _ hc]
    by_cases hsrc : args.Source = ""
    · left
      simp [hnf, hspec, hsrc]
    · right
      rcases hst with h | htg
      · exact absurd h hsrc
      · simp [hnf, hspec, hsrc, htg]
  · rw [Exec_events]
    exact List.mem_append_right _
      (execMain_write_event os (putSleep os w).2 args hURL ct hc hpw)
  · rw [Exec_world, execMain_files_eq]
    simp only [putSleep]
    rw [if_pos ⟨hURL, hcred, hpw⟩]
    exact List.mem_cons_self _ _

/-- Configuration for the C9 witness: certificate contents, API key,
source and target missing. -/
def cfgPemFail : Args := { URL := "https://x", APIKey := "k", PEMFileContents := "CERT", PEMFilePath := "/tmp/c.pem" }

/-- C9 witness: the failed run at a concrete configuration leaves the
certificate behind. -/
theorem c9_witness :
    ((Exec OS.other cleanWorld cfgPemFail).result = some MissingSource ∨
     (Exec OS.other cleanWorld cfgPemFail).result = some MissingTarget)
    ∧ Event.writeFile (resolvePemPath OS.other cfgPemFail) cfgPemFail.PEMFileContents 0o600 ∈
        (Exec OS.other cleanWorld cfgPemFail).events
    ∧ (resolvePemPath OS.other cfgPemFail, cfgPemFail.PEMFileContents) ∈
        (Exec OS.other cleanWorld cfgPemFail).world.files :=
  c9_cert_written_despite_failure OS.other cleanWorld cfgPemFail
    (by decide) (by decide) (by decide) (by decide) rfl (by decide)
    (fun _ => rfl) (fun _ => rfl) (Or.inl rfl)
